import Mathlib

/-!
Verification development for the voice-call / conversational-AI relay server.

The repository contains a Fastify HTTP control plane plus a per-call
WebSocket bridge session.  We embed the per-call session of `src/index.js`
(the full-featured server: metrics, transcripts, reconnect with backoff,
deferred-message handling, idle timer) as an explicit state machine
`relayStep` over session events, and the media-stream handler of the
buffering variant (`src/unnamed/part_002`: `elevenLabsReady` /
`audioBuffer`) as `bridgeStep`.  HTTP handlers (`/twilio/outbound_call`,
`/twilio/call_status`, `/transcripts/:callSid`) are embedded as pure
functions on their stores.

Conventions: JavaScript truthiness tests on optional string fields
(`message.audio_event?.audio_base_64`, `message.ping_event?.event_id`,
`callSid && text`) are modelled as `Option String` being `some s` with
`s ≠ ""`.  `setTimeout` re-queueing of ElevenLabs messages while
`streamSid` is unset is modelled by a FIFO `deferred` list plus a
`retryDeferred` event.  Base64 payloads are opaque strings; the
`Buffer.from(p, "base64").toString("base64")` round trip is the identity
on the canonical base64 the telephony peer sends, so payloads are
forwarded verbatim in the model.
-/

/-- Messages from the ElevenLabs (AI) peer, after JSON parsing, as
discriminated by `message.type` in `handleElevenLabsMessage` of
`src/index.js`.  Optional string payloads model the fields the code
reads with optional chaining. -/
inductive RMsg where
  | metadata
  | audio (payload : Option String)
  | interruption
  | ping (eventId : Option String)
  | userTranscript (text : Option String)
  | agentResponse (text : Option String)
  | other
deriving DecidableEq, Repr

/-- Observable effects of one event-handler activation in the
`src/index.js` session: frames sent to the telephony (Twilio) peer,
frames sent to the AI peer, socket closes, and a scheduled reconnect
(the `setTimeout(connectElevenLabs, delay)` call, which starts from a
fresh signed-URL fetch). -/
inductive ROut where
  | twilioMedia (streamSid : String) (payload : String)
  | twilioClear (streamSid : String)
  | elUserAudio (payload : String)
  | elPong (eventId : String)
  | elInitData
  | elConversationEnd
  | closeEL
  | closeTwilio
  | scheduleConnect (delayMs : Nat)
deriving DecidableEq, Repr

/-- Per-session mutable state of the `/media-stream` handler closure in
`src/index.js`: `streamSid`, `conversationActive`, `closed`,
`reconnectAttempts`, `firstConnection`, plus the global
`metrics.reconnects` counter, the per-call transcript, the current AI
socket's open/closed condition (`elevenLabsWs.readyState === OPEN`),
and the FIFO of messages re-queued while `streamSid` was unset. -/
structure RelayState where
  streamSid : Option String
  conversationActive : Bool
  wsOpen : Bool
  closed : Bool
  reconnectAttempts : Nat
  firstConnection : Bool
  reconnectsMetric : Nat
  deferred : List RMsg
  transcript : List (String × String)
deriving DecidableEq, Repr

/-- Session state at `/media-stream` connection time (`src/index.js`
lines 245-250): no stream id, AI not connected, zero reconnect
attempts, `firstConnection = true`. -/
def relayInit : RelayState :=
  { streamSid := none, conversationActive := false, wsOpen := false,
    closed := false, reconnectAttempts := 0, firstConnection := true,
    reconnectsMetric := 0, deferred := [], transcript := [] }

/-- Per-session constants captured by the handler closure:
`MAX_ELEVENLABS_RETRIES` (the spec's `MAX_AI_RETRIES`), whether any of
`script`/`persona`/`context` is present (gates the initiation frame sent
on AI open), and the `callSid` from the call registry (gates transcript
appends). -/
structure RelayConfig where
  maxRetries : Nat
  hasContext : Bool
  callSid : Option String
deriving DecidableEq, Repr

/-- `addTranscript` helper of `src/index.js` (lines 258-262): appends a
turn only if the session has a `callSid` and the text is truthy. -/
def addTranscript (cfg : RelayConfig) (s : RelayState) (role : String)
    (text : Option String) : RelayState :=
  match text with
  | some t => if cfg.callSid.isSome && t != "" then
      { s with transcript := s.transcript ++ [(role, t)] } else s
  | none => s

/-- `handleElevenLabsMessage` of `src/index.js` (lines 371-426).  If
`streamSid` is not yet set the message is re-queued (`setTimeout`,
line 375) and nothing is sent.  Otherwise: `audio` is forwarded to the
telephony peer as a `media` frame tagged with the current `streamSid`;
`interruption` sends a `clear` frame; `ping` answers with a `pong`
carrying the same `event_id` on the current AI socket; transcript
events append to the transcript; `conversation_initiation_metadata`
and unknown types only log. -/
def handleElevenLabsMessage (cfg : RelayConfig) (s : RelayState) (m : RMsg) :
    RelayState × List ROut :=
  match s.streamSid with
  | none => ({ s with deferred := s.deferred ++ [m] }, [])
  | some sid =>
    match m with
    | .metadata => (s, [])
    | .audio (some payload) =>
        if payload = "" then (s, []) else (s, [.twilioMedia sid payload])
    | .audio none => (s, [])
    | .interruption => (s, [.twilioClear sid])
    | .ping (some eid) =>
        if eid = "" then (s, []) else (s, [.elPong eid])
    | .ping none => (s, [])
    | .userTranscript t => (addTranscript cfg s "user" t, [])
    | .agentResponse t => (addTranscript cfg s "agent" t, [])
    | .other => (s, [])

/-- Events that drive one `src/index.js` session: frames from the
telephony peer (`start` / `media` / `stop`), its socket close, the AI
socket's `open` / `message` / `close` callbacks, a signed-URL fetch
failure (the `connectElevenLabs` catch block), the idle-timer firing,
and the retry timer of one deferred AI message. -/
inductive REv where
  | twilioStart (sid : String)
  | twilioMedia (payload : String)
  | twilioStop
  | twilioClose
  | elOpen
  | elMsg (m : RMsg)
  | elClose
  | fetchFail
  | idleFire
  | retryDeferred
deriving DecidableEq, Repr

/-- One event-handler activation of the `src/index.js` session.
Each branch is a direct translation of the corresponding callback:
* `twilioStart` (line 437): set `streamSid`.
* `twilioMedia` (lines 441-453): forward as `{ user_audio_chunk }` only
  when the AI socket is open and `conversationActive`; otherwise the
  chunk is dropped (only a warning is logged — there is no buffer in
  this file).
* `twilioStop` / `twilioClose` (lines 455-467, 477-488): set `closed`,
  send `conversation_end` and close the AI socket if it is open.
* `elOpen` (lines 278-285): `conversationActive = true`,
  `reconnectAttempts = 0`; on the first connection only, increment the
  `reconnects` metric; send the initiation frame when the call context
  has script/persona/context (lines 300-320).
* `elClose` (lines 337-350) and `fetchFail` (lines 352-367): if not
  `closed` and attempts remain, increment `reconnectAttempts` and
  schedule `connectElevenLabs` after `1000 * 2 ^ (attempts - 1)` ms
  computed from the post-increment counter; else if not `closed`, close
  the telephony socket.
* `idleFire` (lines 502-511): only if the AI socket is open, set
  `closed`, send `conversation_end` and close the AI socket.  The
  telephony socket is not touched.
* `retryDeferred`: re-deliver the oldest re-queued AI message. -/
def relayStep (cfg : RelayConfig) (s : RelayState) : REv → RelayState × List ROut
  | .twilioStart sid => ({ s with streamSid := some sid }, [])
  | .twilioMedia payload =>
      if s.wsOpen && s.conversationActive then (s, [.elUserAudio payload])
      else (s, [])
  | .twilioStop =>
      if s.wsOpen then
        ({ s with closed := true, wsOpen := false }, [.elConversationEnd, .closeEL])
      else ({ s with closed := true }, [])
  | .twilioClose =>
      if s.wsOpen then
        ({ s with closed := true, wsOpen := false }, [.elConversationEnd, .closeEL])
      else ({ s with closed := true }, [])
  | .elOpen =>
      let s1 := { s with conversationActive := true, wsOpen := true,
                         reconnectAttempts := 0 }
      let s2 := if s1.firstConnection then
          { s1 with reconnectsMetric := s1.reconnectsMetric + 1,
                    firstConnection := false }
        else s1
      (s2, if cfg.hasContext then [.elInitData] else [])
  | .elMsg m => handleElevenLabsMessage cfg s m
  | .elClose =>
      let s1 := { s with conversationActive := false, wsOpen := false }
      if !s.closed && s.reconnectAttempts < cfg.maxRetries then
        ({ s1 with reconnectAttempts := s.reconnectAttempts + 1 },
         [.scheduleConnect (1000 * 2 ^ s.reconnectAttempts)])
      else if !s.closed then (s1, [.closeTwilio])
      else (s1, [])
  | .fetchFail =>
      let s1 := { s with conversationActive := false }
      if !s.closed && s.reconnectAttempts < cfg.maxRetries then
        ({ s1 with reconnectAttempts := s.reconnectAttempts + 1 },
         [.scheduleConnect (1000 * 2 ^ s.reconnectAttempts)])
      else if !s.closed then (s1, [.closeTwilio])
      else (s1, [])
  | .idleFire =>
      if s.wsOpen then
        ({ s with closed := true, wsOpen := false }, [.elConversationEnd, .closeEL])
      else (s, [])
  | .retryDeferred =>
      match s.deferred with
      | [] => (s, [])
      | m :: rest => handleElevenLabsMessage cfg { s with deferred := rest } m

/-- Run a `src/index.js` session over a list of events, collecting the
final state and all outputs in order. -/
def runRelay (cfg : RelayConfig) (s : RelayState) : List REv → RelayState × List ROut
  | [] => (s, [])
  | e :: rest =>
      ((runRelay cfg (relayStep cfg s e).1 rest).1,
       (relayStep cfg s e).2 ++ (runRelay cfg (relayStep cfg s e).1 rest).2)

/-- The `streamSid` tag of an outbound telephony frame, `none` for
outputs that are not `media`/`clear` frames to the telephony peer. -/
def mediaClearSid : ROut → Option String
  | .twilioMedia sid _ => some sid
  | .twilioClear sid => some sid
  | _ => none

/-- The stream ids carried by the `start` events of a trace. -/
def startSids : List REv → List String
  | [] => []
  | .twilioStart sid :: rest => sid :: startSids rest
  | _ :: rest => startSids rest

/-- Whether an event is a telephony `start` event. -/
def isStartEv : REv → Bool
  | .twilioStart _ => true
  | _ => false

/-! ## Buffering variant: the media-stream handler of src/unnamed/part_002 -/

/-- WebSocket `readyState` of the single ElevenLabs socket created by the
`part_002` handler: `CONNECTING`, then `OPEN` on the `open` event, then
closed; real sockets never return to an earlier state and deliver
messages only while open. -/
inductive WsState where
  | connecting
  | opened
  | closedWs
deriving DecidableEq, Repr

/-- Messages from the ElevenLabs peer as discriminated by `msg.type` in
the `part_002` message handler. -/
inductive BMsg where
  | metadata
  | audio (payload : Option String)
  | interruption
  | ping (eventId : Option String)
  | other
deriving DecidableEq, Repr

/-- Observable effects of the `part_002` handler.  `twMediaOut` and
`twClearOut` carry the `streamSid` value at send time, which this
variant includes even when it is still `null`. -/
inductive BOut where
  | elUserChunk (payload : String)
  | twMediaOut (streamSid : Option String) (payload : String)
  | twClearOut (streamSid : Option String)
  | elPongOut (eventId : String)
  | closeEL
deriving DecidableEq, Repr

/-- Session state of the `part_002` `/media-stream` handler (lines
79-81): `streamSid`, the readiness flag `elevenLabsReady`, the FIFO
`audioBuffer` of caller payloads awaiting readiness, plus the AI
socket's `readyState`. -/
structure BridgeState where
  streamSid : Option String
  elevenLabsReady : Bool
  ws : WsState
  audioBuffer : List String
deriving DecidableEq, Repr

/-- Initial `part_002` session state: `streamSid = null`,
`elevenLabsReady = false`, empty buffer, AI socket connecting. -/
def bridgeInit : BridgeState :=
  { streamSid := none, elevenLabsReady := false, ws := .connecting,
    audioBuffer := [] }

/-- The ElevenLabs message handler of `part_002` (lines 111-139):
`conversation_initiation_metadata` sets `elevenLabsReady` and flushes
`audioBuffer` in order as `{ user_audio_chunk }` frames; `audio`
forwards to the telephony peer tagged with the current (possibly null)
`streamSid`; `interruption` sends `clear`; `ping` answers `pong` with
the same event id. -/
def handleBridgeMsg (s : BridgeState) : BMsg → BridgeState × List BOut
  | .metadata =>
      ({ s with elevenLabsReady := true, audioBuffer := [] },
       s.audioBuffer.map BOut.elUserChunk)
  | .audio (some payload) =>
      if payload = "" then (s, []) else (s, [.twMediaOut s.streamSid payload])
  | .audio none => (s, [])
  | .interruption => (s, [.twClearOut s.streamSid])
  | .ping (some eid) =>
      if eid = "" then (s, []) else (s, [.elPongOut eid])
  | .ping none => (s, [])
  | .other => (s, [])

/-- Events that drive one `part_002` session: frames from the telephony
peer, its socket close, and the AI socket's `open` / `message` /
`close` callbacks. -/
inductive BEv where
  | twStart (sid : String)
  | twMedia (payload : String)
  | twStop
  | twClose
  | elbOpen
  | elbMsg (m : BMsg)
  | elbClose
deriving DecidableEq, Repr

/-- The spec's `aiReady`: the current AI connection has delivered
`conversation_initiation_metadata` and has not disconnected.  In
`part_002` this is exactly the forwarding guard
`elevenLabsReady && elevenLabsWs.readyState === WebSocket.OPEN`
(line 158). -/
def aiReadyB (s : BridgeState) : Bool :=
  s.elevenLabsReady && s.ws == WsState.opened

/-- One event-handler activation of the `part_002` session (lines
104-181): `start` records `streamSid`; `media` forwards the payload as
`{ user_audio_chunk }` when `elevenLabsReady` and the AI socket is
open, else appends it to `audioBuffer`; `stop` and the telephony close
close the AI socket if open; AI messages are delivered only while the
socket is open (`readyState` semantics), and the socket's state moves
`connecting → opened → closedWs` monotonically. -/
def bridgeStep (s : BridgeState) : BEv → BridgeState × List BOut
  | .twStart sid => ({ s with streamSid := some sid }, [])
  | .twMedia payload =>
      if aiReadyB s then (s, [.elUserChunk payload])
      else ({ s with audioBuffer := s.audioBuffer ++ [payload] }, [])
  | .twStop =>
      if s.ws == WsState.opened then ({ s with ws := .closedWs }, [.closeEL])
      else (s, [])
  | .twClose =>
      if s.ws == WsState.opened then ({ s with ws := .closedWs }, [.closeEL])
      else (s, [])
  | .elbOpen =>
      if s.ws == WsState.connecting then ({ s with ws := .opened }, [])
      else (s, [])
  | .elbMsg m =>
      if s.ws == WsState.opened then handleBridgeMsg s m else (s, [])
  | .elbClose => ({ s with ws := .closedWs }, [])

/-- Run a `part_002` session over a list of events. -/
def runBridge (s : BridgeState) : List BEv → BridgeState × List BOut
  | [] => (s, [])
  | e :: rest =>
      ((runBridge (bridgeStep s e).1 rest).1,
       (bridgeStep s e).2 ++ (runBridge (bridgeStep s e).1 rest).2)

/-! ## HTTP control plane: metrics, call status, outbound call, transcripts -/

/-- The in-memory `metrics` object of `src/index.js` (lines 38-43).
`activeCalls` is an integer because the code guards its decrement with
`Math.max(0, ...)` rather than relying on a non-negative type. -/
structure Metrics where
  calls : Nat
  errors : Nat
  activeCalls : Int
  reconnects : Nat
deriving DecidableEq, Repr

/-- The terminal call statuses recognised by `POST /twilio/call_status`
(`src/index.js` line 226). -/
def terminalStatuses : List String :=
  ["completed", "failed", "busy", "no-answer", "canceled"]

/-- State touched by `POST /twilio/call_status`: the metrics and the
call-context registry (reqId, callSid) pairs. -/
structure StatusState where
  activeCalls : Int
  contexts : List (String × String)
deriving DecidableEq, Repr

/-- `POST /twilio/call_status` (`src/index.js` lines 220-237): on a
terminal `CallStatus`, set `activeCalls` to `Math.max(0, activeCalls-1)`
and drop registry entries whose `callSid` matches; otherwise leave the
state unchanged.  The handler has no per-`CallSid` deduplication. -/
def callStatusStep (st : StatusState) (callSid : String) (callStatus : String) :
    StatusState :=
  if callStatus ∈ terminalStatuses then
    { activeCalls := max 0 (st.activeCalls - 1),
      contexts := st.contexts.filter (fun p => p.2 != callSid) }
  else st

/-- The E.164 phone regex of `POST /twilio/outbound_call`
(`src/index.js` line 127): an optional leading plus, a first digit in
1-9, then one to fourteen further digits, anchored at both ends. -/
def e164 (s : String) : Bool :=
  let cs := match s.data with
    | '+' :: rest => rest
    | cs => cs
  match cs with
  | c :: rest =>
      ('1' ≤ c && c ≤ '9') && decide (1 ≤ rest.length) &&
        decide (rest.length ≤ 14) && rest.all Char.isDigit
  | [] => false

/-- Result of the `twilioClient.calls.create` call: either a created
call (sid and status) or a thrown provider error. -/
inductive ProviderResult where
  | ok (callSid : String) (status : String)
  | err (msg : String)
deriving DecidableEq, Repr

/-- `POST /twilio/outbound_call` (`src/index.js` lines 120-189),
restricted to its observable statuses and metrics effects: missing or
falsy `to` → 400; `to` failing the E.164 regex → 400 (neither touches
the metrics); provider success → 200 with `calls` and `activeCalls`
incremented; provider throw → 500 with `errors` incremented. -/
def outboundCall (m : Metrics) (toField : Option String)
    (provider : ProviderResult) : Nat × Metrics :=
  match toField with
  | none => (400, m)
  | some t =>
    if t = "" then (400, m)
    else if !e164 t then (400, m)
    else match provider with
      | .ok _ _ =>
          (200, { m with calls := m.calls + 1, activeCalls := m.activeCalls + 1 })
      | .err _ => (500, { m with errors := m.errors + 1 })

/-- One transcript turn as pushed by `addTranscript`:
`{ role, text, timestamp }`. -/
structure TranscriptTurn where
  role : String
  text : String
  timestamp : String
deriving DecidableEq, Repr

/-- How the `transcript` field of the `reply.send` argument serializes
under `JSON.stringify`: a stored (or defaulted) array of turns becomes
a JSON array; a function value — the result of reading an
`Object.prototype` method through the prototype chain — is dropped from
the serialized object entirely; the `__proto__` accessor yields the
`Object.prototype` object itself, whose own properties are all
non-enumerable, so it serializes as the empty JSON object. -/
inductive TranscriptField where
  | turns (ts : List TranscriptTurn)
  | omitted
  | protoObject
deriving DecidableEq, Repr

/-- The JSON body sent by `GET /transcripts/:callSid`. -/
structure TranscriptResp where
  callSid : String
  transcript : TranscriptField
deriving DecidableEq, Repr

/-- The function-valued own properties of `Object.prototype`, inherited
by the object-literal `transcripts = {}` (`src/index.js` line 44) and
therefore returned — truthy — by `transcripts[callSid]` for these
never-registered keys. -/
def objectProtoProps : List String :=
  ["constructor", "hasOwnProperty", "isPrototypeOf", "propertyIsEnumerable",
   "toLocaleString", "toString", "valueOf", "__defineGetter__",
   "__defineSetter__", "__lookupGetter__", "__lookupSetter__"]

/-- `GET /transcripts/:callSid` (`src/index.js` lines 114-117): always
replies with the default 200 status and
`{ callSid, transcript: transcripts[callSid] || [] }`, where the
property read follows JavaScript semantics on the object literal
`transcripts`: `"__proto__"` invokes the inherited accessor and returns
`Object.prototype` (it can never become an own key — assigning through
it at line 253 would re-point the prototype instead of adding a
property, so `store` never contains it and the prototype is assumed
unmodified); an own key (`store`) shadows the prototype and yields the
stored array, which is truthy even when empty; a key naming an
`Object.prototype` method yields the inherited function, which is
truthy, so `|| []` does not replace it; any other key yields
`undefined`, and `|| []` produces the empty array. -/
def getTranscriptHandler (store : List (String × List TranscriptTurn))
    (sid : String) : Nat × TranscriptResp :=
  if sid = "__proto__" then (200, { callSid := sid, transcript := .protoObject })
  else
    match store.lookup sid with
    | some ts => (200, { callSid := sid, transcript := .turns ts })
    | none =>
        if sid ∈ objectProtoProps then
          (200, { callSid := sid, transcript := .omitted })
        else (200, { callSid := sid, transcript := .turns [] })

/-! ## Concrete fixtures used by witnesses and counterexamples -/

/-- A session configuration with the default `MAX_ELEVENLABS_RETRIES = 3`
and no script/persona/context. -/
def cfg0 : RelayConfig := { maxRetries := 3, hasContext := false, callSid := none }

/-- The scenario-S5 configuration: `MAX_AI_RETRIES = 2`. -/
def cfgS5 : RelayConfig := { maxRetries := 2, hasContext := false, callSid := none }

/-- Session state right after a successful AI open. -/
def sAIOpen : RelayState := (runRelay cfg0 relayInit [REv.elOpen]).1

/-- Session state right after the telephony `start` event. -/
def sStarted : RelayState := (runRelay cfg0 relayInit [REv.twilioStart "SID1"]).1

/-- Session state in which an `audio` message arrived before `start` (so
it was re-queued) and the `start` event then set the stream id. -/
def sAudioQueued : RelayState :=
  (runRelay cfg0 relayInit
    [REv.elOpen, REv.elMsg (RMsg.audio (some "ZZ")), REv.twilioStart "SID1"]).1

/-- Trace for claim C2's witness: `start`, AI open, one AI audio frame. -/
def evsC2 : List REv :=
  [REv.twilioStart "SID2", REv.elOpen, REv.elMsg (RMsg.audio (some "ZZ"))]

/-- Trace in which a `ping` arrives while `streamSid` is unset and the
session never receives a `start` event. -/
def evsPing : List REv :=
  [REv.elOpen, REv.elMsg (RMsg.ping (some "e-42")), REv.retryDeferred,
   REv.retryDeferred]

/-- Trace in which an AI `audio` message arrives before `start`, the
`start` event then sets the stream id, and the re-queue timer fires. -/
def evsAudioDeferred : List REv :=
  [REv.elOpen, REv.elMsg (RMsg.audio (some "ZZ")), REv.twilioStart "SID1",
   REv.retryDeferred]

/-- Scenario S5 with the AI socket closing immediately after each of
three successful opens. -/
def evsS5open : List REv :=
  [REv.elOpen, REv.elClose, REv.elOpen, REv.elClose, REv.elOpen, REv.elClose]

/-- `part_002` state with the AI socket open, not yet ready, and two
caller payloads buffered (scenario S1 before readiness). -/
def bridgeS1 : BridgeState :=
  (runBridge bridgeInit [BEv.elbOpen, BEv.twMedia "AA", BEv.twMedia "BB"]).1

/-- `part_002` state with the AI socket open and ready, empty buffer. -/
def bridgeReady : BridgeState :=
  (runBridge bridgeInit [BEv.elbOpen, BEv.elbMsg BMsg.metadata]).1

/-! ## Helper lemmas -/

/-- The inductive invariant of the `part_002` session: whenever the AI
connection is ready and open the buffer is empty, and readiness implies
the socket has left the `CONNECTING` state. -/
def bridgeInv (s : BridgeState) : Prop :=
  (aiReadyB s = true → s.audioBuffer = []) ∧
  (s.elevenLabsReady = true → s.ws ≠ WsState.connecting)

theorem handleBridgeMsg_inv (s : BridgeState) (m : BMsg)
    (hw : s.ws = WsState.opened) (h : bridgeInv s) :
    bridgeInv (handleBridgeMsg s m).1 := by
  obtain ⟨h1, h2⟩ := h
  cases m with
  | metadata =>
      refine ⟨fun _ => rfl, fun _ => ?_⟩
      simp [handleBridgeMsg, hw]
  | audio p =>
      cases p with
      | none => exact ⟨h1, h2⟩
      | some payload =>
          by_cases hp : payload = "" <;> simp [handleBridgeMsg, hp] <;>
            exact ⟨h1, h2⟩
  | interruption => exact ⟨h1, h2⟩
  | ping e =>
      cases e with
      | none => exact ⟨h1, h2⟩
      | some eid =>
          by_cases hp : eid = "" <;> simp [handleBridgeMsg, hp] <;>
            exact ⟨h1, h2⟩
  | other => exact ⟨h1, h2⟩

theorem bridgeStep_inv (s : BridgeState) (e : BEv) (h : bridgeInv s) :
    bridgeInv (bridgeStep s e).1 := by
  obtain ⟨h1, h2⟩ := h
  cases e with
  | twStart sid => exact ⟨h1, h2⟩
  | twMedia p =>
      by_cases hb : aiReadyB s
      · simp [bridgeStep, hb]; exact ⟨h1, h2⟩
      · simp [bridgeStep, hb]
        refine ⟨fun hr => ?_, h2⟩
        exact absurd hr hb
  | twStop =>
      by_cases hw : s.ws == WsState.opened <;> simp [bridgeStep, hw]
      · exact ⟨by simp [aiReadyB], fun _ => by simp⟩
      · exact ⟨h1, h2⟩
  | twClose =>
      by_cases hw : s.ws == WsState.opened <;> simp [bridgeStep, hw]
      · exact ⟨by simp [aiReadyB], fun _ => by simp⟩
      · exact ⟨h1, h2⟩
  | elbOpen =>
      by_cases hw : s.ws == WsState.connecting <;> simp [bridgeStep, hw]
      · have hready : s.elevenLabsReady = false := by
          by_contra hr
          have := h2 (by simpa using eq_true_of_ne_false hr)
          exact this (by simpa using hw)
        exact ⟨by simp [aiReadyB, hready], by simp [hready]⟩
      · exact ⟨h1, h2⟩
  | elbMsg m =>
      by_cases hw : s.ws == WsState.opened <;> simp [bridgeStep, hw]
      · exact handleBridgeMsg_inv s m (by simpa using hw) ⟨h1, h2⟩
      · exact ⟨h1, h2⟩
  | elbClose =>
      refine ⟨fun hr => absurd hr ?_, fun _ => ?_⟩
      · simp [aiReadyB, bridgeStep, beq_iff_eq]
      · simp [bridgeStep]

theorem runBridge_inv (evs : List BEv) :
    ∀ s : BridgeState, bridgeInv s → bridgeInv (runBridge s evs).1 := by
  induction evs with
  | nil => intro s h; exact h
  | cons e rest ih => intro s h; exact ih _ (bridgeStep_inv s e h)

/-! ## Claim C1 -/

/-- Claim C1 (confirmed, against the buffering media-stream handler of
`src/unnamed/part_002`): a `media.payload` received from the telephony
peer while `aiReady` is false is appended to the pending-audio FIFO
(`audioBuffer`) and nothing is sent; on `conversation_initiation_metadata`
from the AI peer the buffer is drained in FIFO order as
`{ user_audio_chunk }` frames and becomes empty; in every reachable
state, while `aiReady` holds the buffer is empty; and a payload received
while `aiReady` is true is forwarded immediately as
`{ user_audio_chunk: payload }`. -/
theorem bridge_c1 :
    (∀ (s : BridgeState) (p : String), aiReadyB s = false →
      bridgeStep s (BEv.twMedia p) =
        ({ s with audioBuffer := s.audioBuffer ++ [p] }, []))
    ∧ (∀ (s : BridgeState) (p : String), aiReadyB s = true →
      bridgeStep s (BEv.twMedia p) = (s, [BOut.elUserChunk p]))
    ∧ (∀ s : BridgeState, s.ws = WsState.opened →
      bridgeStep s (BEv.elbMsg BMsg.metadata) =
        ({ s with elevenLabsReady := true, audioBuffer := [] },
         s.audioBuffer.map BOut.elUserChunk))
    ∧ (∀ evs : List BEv, aiReadyB (runBridge bridgeInit evs).1 = true →
      (runBridge bridgeInit evs).1.audioBuffer = []) := by
  refine ⟨?_, ?_, ?_, ?_⟩
  · intro s p h; simp [bridgeStep, h]
  · intro s p h; simp [bridgeStep, h]
  · intro s hw; simp [bridgeStep, handleBridgeMsg, hw]
  · intro evs
    exact (runBridge_inv evs bridgeInit (by constructor <;> intro h <;> simp [aiReadyB, bridgeInit] at h)).1

/-- Witness for C1: concrete runs.  After AI open with "AA" and "BB"
buffered (not ready yet), a further chunk is buffered; the metadata
message flushes exactly `["AA", "BB"]` in order; once ready, "DD" is
forwarded immediately; and the buffer is empty in the ready state. -/
theorem bridge_c1_witness :
    (aiReadyB bridgeS1 = false ∧
      bridgeStep bridgeS1 (BEv.twMedia "CC") =
        ({ bridgeS1 with audioBuffer := bridgeS1.audioBuffer ++ ["CC"] }, []))
    ∧ (bridgeS1.ws = WsState.opened ∧
      bridgeStep bridgeS1 (BEv.elbMsg BMsg.metadata) =
        ({ bridgeS1 with elevenLabsReady := true, audioBuffer := [] },
         [BOut.elUserChunk "AA", BOut.elUserChunk "BB"]))
    ∧ (aiReadyB bridgeReady = true ∧
      bridgeStep bridgeReady (BEv.twMedia "DD") =
        (bridgeReady, [BOut.elUserChunk "DD"]))
    ∧ (aiReadyB (runBridge bridgeInit [BEv.elbOpen, BEv.elbMsg BMsg.metadata]).1 = true ∧
      (runBridge bridgeInit [BEv.elbOpen, BEv.elbMsg BMsg.metadata]).1.audioBuffer = []) :=
  ⟨⟨by decide, bridge_c1.1 bridgeS1 "CC" (by decide)⟩,
   ⟨by decide, bridge_c1.2.2.1 bridgeS1 (by decide)⟩,
   ⟨by decide, bridge_c1.2.1 bridgeReady "DD" (by decide)⟩,
   ⟨by decide, bridge_c1.2.2.2 [BEv.elbOpen, BEv.elbMsg BMsg.metadata] (by decide)⟩⟩

/-! ## Claim C2 -/

theorem addTranscript_streamSid (cfg : RelayConfig) (s : RelayState)
    (role : String) (t : Option String) :
    (addTranscript cfg s role t).streamSid = s.streamSid := by
  cases t with
  | none => rfl
  | some txt => simp only [addTranscript]; split <;> rfl

theorem handleELMsg_streamSid (cfg : RelayConfig) (s : RelayState) (m : RMsg) :
    (handleElevenLabsMessage cfg s m).1.streamSid = s.streamSid := by
  cases hs : s.streamSid with
  | none => simp [handleElevenLabsMessage, hs]
  | some sid =>
      cases m with
      | metadata => simp [handleElevenLabsMessage, hs]
      | audio p =>
          cases p with
          | none => simp [handleElevenLabsMessage, hs]
          | some payload =>
              by_cases hp : payload = "" <;> simp [handleElevenLabsMessage, hs, hp]
      | interruption => simp [handleElevenLabsMessage, hs]
      | ping e =>
          cases e with
          | none => simp [handleElevenLabsMessage, hs]
          | some eid =>
              by_cases hp : eid = "" <;> simp [handleElevenLabsMessage, hs, hp]
      | userTranscript t =>
          simp [handleElevenLabsMessage, hs, addTranscript_streamSid]
      | agentResponse t =>
          simp [handleElevenLabsMessage, hs, addTranscript_streamSid]
      | other => simp [handleElevenLabsMessage, hs]

theorem handleELMsg_out_sid (cfg : RelayConfig) (s : RelayState) (m : RMsg) :
    ∀ o ∈ (handleElevenLabsMessage cfg s m).2, ∀ t,
      mediaClearSid o = some t → s.streamSid = some t := by
  cases hs : s.streamSid with
  | none => simp [handleElevenLabsMessage, hs]
  | some sid =>
      cases m with
      | metadata => simp [handleElevenLabsMessage, hs]
      | audio p =>
          cases p with
          | none => simp [handleElevenLabsMessage, hs]
          | some payload =>
              by_cases hp : payload = "" <;>
                simp [handleElevenLabsMessage, hs, hp, mediaClearSid]
      | interruption => simp [handleElevenLabsMessage, hs, mediaClearSid]
      | ping e =>
          cases e with
          | none => simp [handleElevenLabsMessage, hs]
          | some eid =>
              by_cases hp : eid = "" <;>
                simp [handleElevenLabsMessage, hs, hp, mediaClearSid]
      | userTranscript t => simp [handleElevenLabsMessage, hs]
      | agentResponse t => simp [handleElevenLabsMessage, hs]
      | other => simp [handleElevenLabsMessage, hs]

theorem relayStep_out_sid (cfg : RelayConfig) (s : RelayState) (e : REv) :
    ∀ o ∈ (relayStep cfg s e).2, ∀ t,
      mediaClearSid o = some t → s.streamSid = some t := by
  cases e with
  | twilioStart sid => simp [relayStep]
  | twilioMedia p =>
      by_cases h : s.wsOpen && s.conversationActive <;>
        simp [relayStep, h, mediaClearSid]
  | twilioStop =>
      by_cases h : s.wsOpen <;> simp [relayStep, h, mediaClearSid]
  | twilioClose =>
      by_cases h : s.wsOpen <;> simp [relayStep, h, mediaClearSid]
  | elOpen =>
      by_cases h : cfg.hasContext <;> by_cases hf : s.firstConnection <;>
        simp [relayStep, h, hf, mediaClearSid]
  | elMsg m => exact handleELMsg_out_sid cfg s m
  | elClose =>
      by_cases h1 : s.closed <;> by_cases h2 : s.reconnectAttempts < cfg.maxRetries <;>
        simp [relayStep, h1, h2, mediaClearSid]
  | fetchFail =>
      by_cases h1 : s.closed <;> by_cases h2 : s.reconnectAttempts < cfg.maxRetries <;>
        simp [relayStep, h1, h2, mediaClearSid]
  | idleFire =>
      by_cases h : s.wsOpen <;> simp [relayStep, h, mediaClearSid]
  | retryDeferred =>
      cases hd : s.deferred with
      | nil => simp [relayStep, hd]
      | cons m rest =>
          intro o ho t hmc
          have := handleELMsg_out_sid cfg { s with deferred := rest } m o
            (by simpa [relayStep, hd] using ho) t hmc
          simpa using this

theorem relayStep_streamSid (cfg : RelayConfig) (s : RelayState) (e : REv) :
    (relayStep cfg s e).1.streamSid = s.streamSid ∨
      ∃ sid, e = REv.twilioStart sid := by
  cases e with
  | twilioStart sid => exact Or.inr ⟨sid, rfl⟩
  | twilioMedia p =>
      left; by_cases h : s.wsOpen && s.conversationActive <;> simp [relayStep, h]
  | twilioStop => left; by_cases h : s.wsOpen <;> simp [relayStep, h]
  | twilioClose => left; by_cases h : s.wsOpen <;> simp [relayStep, h]
  | elOpen =>
      left; by_cases hf : s.firstConnection <;> simp [relayStep, hf]
  | elMsg m => left; exact handleELMsg_streamSid cfg s m
  | elClose =>
      left
      by_cases h1 : s.closed <;> by_cases h2 : s.reconnectAttempts < cfg.maxRetries <;>
        simp [relayStep, h1, h2]
  | fetchFail =>
      left
      by_cases h1 : s.closed <;> by_cases h2 : s.reconnectAttempts < cfg.maxRetries <;>
        simp [relayStep, h1, h2]
  | idleFire => left; by_cases h : s.wsOpen <;> simp [relayStep, h]
  | retryDeferred =>
      left
      cases hd : s.deferred with
      | nil => simp [relayStep, hd]
      | cons m rest =>
          have := handleELMsg_streamSid cfg { s with deferred := rest } m
          simpa [relayStep, hd] using this

theorem startSids_cons_mem (e : REv) (rest : List REv) (x : String)
    (hx : x ∈ startSids rest) : x ∈ startSids (e :: rest) := by
  cases e <;> simp [startSids, hx]

theorem runRelay_c2_aux (cfg : RelayConfig) (S : String) :
    ∀ (evs : List REv) (s : RelayState),
      (∀ x ∈ startSids evs, x = S) →
      (s.streamSid = none ∨ s.streamSid = some S) →
      ∀ o ∈ (runRelay cfg s evs).2, ∀ t, mediaClearSid o = some t → t = S := by
  intro evs
  induction evs with
  | nil => intro s _ _ o ho; simp [runRelay] at ho
  | cons e rest ih =>
      intro s hS hs o ho t hmc
      have hsplit : (runRelay cfg s (e :: rest)).2 =
          (relayStep cfg s e).2 ++ (runRelay cfg (relayStep cfg s e).1 rest).2 := rfl
      rw [hsplit] at ho
      rcases List.mem_append.mp ho with h1 | h2
      · have hsid := relayStep_out_sid cfg s e o h1 t hmc
        rcases hs with hn | hsome
        · rw [hn] at hsid; exact absurd hsid (by simp)
        · rw [hsome] at hsid
          exact (Option.some.inj hsid).symm
      · refine ih (relayStep cfg s e).1 ?_ ?_ o h2 t hmc
        · intro x hx; exact hS x (startSids_cons_mem e rest x hx)
        · rcases relayStep_streamSid cfg s e with heq | ⟨sid, rfl⟩
          · rw [heq]; exact hs
          · right
            have hsid : sid = S := hS sid (by simp [startSids])
            simp [relayStep, hsid]

theorem runRelay_c2_nostart (cfg : RelayConfig) :
    ∀ (evs : List REv) (s : RelayState),
      (∀ e ∈ evs, isStartEv e = false) →
      s.streamSid = none →
      ∀ o ∈ (runRelay cfg s evs).2, mediaClearSid o = none := by
  intro evs
  induction evs with
  | nil => intro s _ _ o ho; simp [runRelay] at ho
  | cons e rest ih =>
      intro s hne hs o ho
      have hsplit : (runRelay cfg s (e :: rest)).2 =
          (relayStep cfg s e).2 ++ (runRelay cfg (relayStep cfg s e).1 rest).2 := rfl
      rw [hsplit] at ho
      rcases List.mem_append.mp ho with h1 | h2
      · cases hmc : mediaClearSid o with
        | none => rfl
        | some t =>
            have hsid := relayStep_out_sid cfg s e o h1 t hmc
            rw [hs] at hsid
            exact absurd hsid (by simp)
      · refine ih (relayStep cfg s e).1 (fun x hx => hne x (List.mem_cons_of_mem e hx)) ?_ o h2
        rcases relayStep_streamSid cfg s e with heq | ⟨sid, rfl⟩
        · rw [heq]; exact hs
        · exact absurd (hne (REv.twilioStart sid) (List.mem_cons_self _ _)) (by simp [isStartEv])

/-- Claim C2 (confirmed): in any `src/index.js` session trace whose
`start` events all carry stream id `S` (in particular a trace with a
single `start` event), every `media` or `clear` frame sent to the
telephony peer carries `streamSid = S`; and a trace with no `start`
event (hence any prefix preceding the `start`) sends no `media` or
`clear` frame at all. -/
theorem relay_c2 (cfg : RelayConfig) (evs : List REv) (S : String)
    (hS : ∀ x ∈ startSids evs, x = S) :
    (∀ o ∈ (runRelay cfg relayInit evs).2, ∀ t,
      mediaClearSid o = some t → t = S)
    ∧ ((∀ e ∈ evs, isStartEv e = false) →
      ∀ o ∈ (runRelay cfg relayInit evs).2, mediaClearSid o = none) :=
  ⟨runRelay_c2_aux cfg S evs relayInit hS (Or.inl rfl),
   fun hne => runRelay_c2_nostart cfg evs relayInit hne rfl⟩

/-- Witness for C2: scenario S2.  After `start{streamSid:"SID2"}` and AI
open, the AI audio frame "ZZ" is sent to the telephony peer tagged with
"SID2", and the theorem instance confirms the tag equals the `start`
event's id. -/
theorem relay_c2_witness :
    (runRelay cfg0 relayInit evsC2).2 = [ROut.twilioMedia "SID2" "ZZ"] ∧
    startSids evsC2 = ["SID2"] ∧ "SID2" = "SID2" :=
  ⟨by decide, by decide,
   (relay_c2 cfg0 evsC2 "SID2" (by decide)).1 (ROut.twilioMedia "SID2" "ZZ")
     (by decide) "SID2" rfl⟩

/-! ## Claim C3 -/

theorem addTranscript_attempts (cfg : RelayConfig) (s : RelayState)
    (role : String) (t : Option String) :
    (addTranscript cfg s role t).reconnectAttempts = s.reconnectAttempts := by
  cases t with
  | none => rfl
  | some txt => simp only [addTranscript]; split <;> rfl

theorem handleELMsg_attempts (cfg : RelayConfig) (s : RelayState) (m : RMsg) :
    (handleElevenLabsMessage cfg s m).1.reconnectAttempts = s.reconnectAttempts := by
  cases hs : s.streamSid with
  | none => simp [handleElevenLabsMessage, hs]
  | some sid =>
      cases m with
      | metadata => simp [handleElevenLabsMessage, hs]
      | audio p =>
          cases p with
          | none => simp [handleElevenLabsMessage, hs]
          | some payload =>
              by_cases hp : payload = "" <;> simp [handleElevenLabsMessage, hs, hp]
      | interruption => simp [handleElevenLabsMessage, hs]
      | ping e =>
          cases e with
          | none => simp [handleElevenLabsMessage, hs]
          | some eid =>
              by_cases hp : eid = "" <;> simp [handleElevenLabsMessage, hs, hp]
      | userTranscript t =>
          simp [handleElevenLabsMessage, hs, addTranscript_attempts]
      | agentResponse t =>
          simp [handleElevenLabsMessage, hs, addTranscript_attempts]
      | other => simp [handleElevenLabsMessage, hs]

theorem relayStep_attempts_le (cfg : RelayConfig) (s : RelayState) (e : REv)
    (h : s.reconnectAttempts ≤ cfg.maxRetries) :
    (relayStep cfg s e).1.reconnectAttempts ≤ cfg.maxRetries := by
  cases e with
  | twilioStart sid => exact h
  | twilioMedia p =>
      by_cases hc : s.wsOpen && s.conversationActive <;> simp [relayStep, hc] <;> exact h
  | twilioStop => by_cases hc : s.wsOpen <;> simp [relayStep, hc] <;> exact h
  | twilioClose => by_cases hc : s.wsOpen <;> simp [relayStep, hc] <;> exact h
  | elOpen =>
      by_cases hf : s.firstConnection <;> simp [relayStep, hf]
  | elMsg m =>
      simp only [relayStep]; rw [handleELMsg_attempts]; exact h
  | elClose =>
      by_cases h1 : s.closed <;>
        by_cases h2 : s.reconnectAttempts < cfg.maxRetries <;>
        simp [relayStep, h1, h2] <;> omega
  | fetchFail =>
      by_cases h1 : s.closed <;>
        by_cases h2 : s.reconnectAttempts < cfg.maxRetries <;>
        simp [relayStep, h1, h2] <;> omega
  | idleFire => by_cases hc : s.wsOpen <;> simp [relayStep, hc] <;> exact h
  | retryDeferred =>
      cases hd : s.deferred with
      | nil => simp [relayStep, hd]; exact h
      | cons m rest =>
          have := handleELMsg_attempts cfg { s with deferred := rest } m
          simp [relayStep, hd, this]; exact h

theorem runRelay_attempts_le (cfg : RelayConfig) :
    ∀ (evs : List REv) (s : RelayState),
      s.reconnectAttempts ≤ cfg.maxRetries →
      (runRelay cfg s evs).1.reconnectAttempts ≤ cfg.maxRetries := by
  intro evs
  induction evs with
  | nil => intro s h; exact h
  | cons e rest ih =>
      intro s h
      exact ih (relayStep cfg s e).1 (relayStep_attempts_le cfg s e h)

/-- Claim C3 (confirmed): `reconnectAttempts` never exceeds
`MAX_ELEVENLABS_RETRIES` in any session trace; while `closed` is false,
an AI disconnect (`close` handler) or signed-URL fetch failure (the
`connectElevenLabs` catch block) with remaining budget increments the
counter and schedules a fresh `connectElevenLabs` (which starts by
fetching a new signed URL) after `1000 * 2 ^ (attempts - 1)` ms, where
`attempts` is the post-increment value (so the delay is
`1000 * 2 ^ s.reconnectAttempts` in terms of the pre-increment state);
with the budget exhausted the telephony socket is closed, and the
telephony close handler marks the session terminal (`closed = true`). -/
theorem relay_c3 :
    (∀ (cfg : RelayConfig) (evs : List REv),
      (runRelay cfg relayInit evs).1.reconnectAttempts ≤ cfg.maxRetries)
    ∧ (∀ (cfg : RelayConfig) (s : RelayState), s.closed = false →
        s.reconnectAttempts < cfg.maxRetries →
        relayStep cfg s REv.elClose =
          ({ s with conversationActive := false, wsOpen := false,
                    reconnectAttempts := s.reconnectAttempts + 1 },
           [ROut.scheduleConnect (1000 * 2 ^ s.reconnectAttempts)])
        ∧ relayStep cfg s REv.fetchFail =
          ({ s with conversationActive := false,
                    reconnectAttempts := s.reconnectAttempts + 1 },
           [ROut.scheduleConnect (1000 * 2 ^ s.reconnectAttempts)]))
    ∧ (∀ (cfg : RelayConfig) (s : RelayState), s.closed = false →
        ¬ s.reconnectAttempts < cfg.maxRetries →
        relayStep cfg s REv.elClose =
          ({ s with conversationActive := false, wsOpen := false },
           [ROut.closeTwilio])
        ∧ relayStep cfg s REv.fetchFail =
          ({ s with conversationActive := false }, [ROut.closeTwilio]))
    ∧ (∀ (cfg : RelayConfig) (s : RelayState),
        (relayStep cfg s REv.twilioClose).1.closed = true) := by
  refine ⟨?_, ?_, ?_, ?_⟩
  · intro cfg evs
    exact runRelay_attempts_le cfg evs relayInit (Nat.zero_le _)
  · intro cfg s h1 h2
    constructor <;> simp [relayStep, h1, h2]
  · intro cfg s h1 h2
    constructor <;> simp [relayStep, h1, h2]
  · intro cfg s
    by_cases hc : s.wsOpen <;> simp [relayStep, hc]

/-- Witness for C3: with `MAX_ELEVENLABS_RETRIES = 3`, the counter after
two disconnects is within budget; the first disconnect from the fresh
session increments the counter to 1 and schedules a retry after
1000 ms; a session with the budget exhausted (`attempts = 2`,
`MAX = 2`) closes the telephony socket; the telephony close handler
sets `closed`. -/
theorem relay_c3_witness :
    ((runRelay cfg0 relayInit [REv.elClose, REv.elClose]).1.reconnectAttempts
      ≤ cfg0.maxRetries)
    ∧ (relayStep cfg0 relayInit REv.elClose =
        ({ relayInit with conversationActive := false, wsOpen := false,
                          reconnectAttempts := 1 },
         [ROut.scheduleConnect 1000]))
    ∧ (relayStep cfgS5 { relayInit with reconnectAttempts := 2 } REv.elClose =
        ({ relayInit with conversationActive := false, wsOpen := false,
                          reconnectAttempts := 2 },
         [ROut.closeTwilio]))
    ∧ (relayStep cfg0 relayInit REv.twilioClose).1.closed = true :=
  ⟨relay_c3.1 cfg0 [REv.elClose, REv.elClose],
   (relay_c3.2.1 cfg0 relayInit rfl (by decide)).1,
   (relay_c3.2.2.1 cfgS5 { relayInit with reconnectAttempts := 2 } rfl
     (by decide)).1,
   relay_c3.2.2.2 cfg0 relayInit⟩

/-! ## Claim C4 -/

/-- Counterexample for C4: with the AI socket open, the idle-timer
callback (`src/index.js` lines 502-511) sends `conversation_end` and
closes the AI socket only — it never closes the telephony WebSocket,
contradicting "on firing closes both peers".  Moreover, if the timer
fires while the AI socket is not open (e.g. during a reconnect
backoff), the callback does nothing, `closed` stays false, and a later
AI disconnect still schedules a reconnect — contradicting "the session
performs no reconnect after it fires". -/
theorem relay_c4_counterexample :
    (relayStep cfg0 sAIOpen REv.idleFire).2 =
      [ROut.elConversationEnd, ROut.closeEL]
    ∧ ROut.closeTwilio ∉ (relayStep cfg0 sAIOpen REv.idleFire).2
    ∧ ROut.scheduleConnect 1000 ∈
        (runRelay cfg0 relayInit [REv.idleFire, REv.elClose]).2 := by
  decide

/-- Claim C4 (corrected): the idle timer is one-shot at
`MEDIA_STREAM_TIMEOUT_MS` after session open; on firing, if the AI
WebSocket is open it sets `closed` (so no further reconnect occurs:
once `closed` holds, AI disconnects and fetch failures produce no
output) and closes the AI WebSocket only — the telephony WebSocket is
not closed by the timer; if the AI WebSocket is not open at fire time
the callback does nothing (and reconnects may still occur). -/
theorem relay_c4_amended (cfg : RelayConfig) (s : RelayState) :
    (s.wsOpen = true →
      relayStep cfg s REv.idleFire =
        ({ s with closed := true, wsOpen := false },
         [ROut.elConversationEnd, ROut.closeEL]))
    ∧ (s.wsOpen = false → relayStep cfg s REv.idleFire = (s, []))
    ∧ (relayStep cfg { s with closed := true } REv.elClose).2 = []
    ∧ (relayStep cfg { s with closed := true } REv.fetchFail).2 = [] := by
  refine ⟨fun h => ?_, fun h => ?_, ?_, ?_⟩
  · simp [relayStep, h]
  · simp [relayStep, h]
  · simp [relayStep]
  · simp [relayStep]

/-- Witness for C4: the amended behaviour at concrete states — firing
with the AI socket open closes only the AI side and sets `closed`;
firing from the fresh (not-open) state is a no-op. -/
theorem relay_c4_witness :
    (sAIOpen.wsOpen = true ∧
      relayStep cfg0 sAIOpen REv.idleFire =
        ({ sAIOpen with closed := true, wsOpen := false },
         [ROut.elConversationEnd, ROut.closeEL]))
    ∧ (relayInit.wsOpen = false ∧
      relayStep cfg0 relayInit REv.idleFire = (relayInit, [])) :=
  ⟨⟨rfl, (relay_c4_amended cfg0 sAIOpen).1 rfl⟩,
   ⟨rfl, (relay_c4_amended cfg0 relayInit).2.1 rfl⟩⟩

/-! ## Claim C5 -/

/-- Counterexample for C5: a `ping` with `event_id "e-42"` arriving
while `streamSid` is unset is re-queued by `handleElevenLabsMessage`
(line 375) rather than answered; in a session that never receives the
telephony `start` event the re-queue loop never sends the pong, so
"the session sends exactly one pong" fails — the trace produces no
output at all. -/
theorem relay_c5_counterexample :
    (runRelay cfg0 relayInit evsPing).2 = []
    ∧ (runRelay cfg0 relayInit evsPing).2.count (ROut.elPong "e-42") ≠ 1 := by
  decide

/-- Claim C5 (corrected): a `ping` carrying a truthy
`ping_event.event_id = X` that is processed while `streamSid` is set is
answered with exactly one `{ type: "pong", event_id: X }` frame, sent
on the session's current AI WebSocket at processing time; a `ping`
arriving while `streamSid` is unset is re-queued and produces no pong
until `streamSid` is set (never, if the session never observes a
`start` event). -/
theorem relay_c5_amended :
    (∀ (cfg : RelayConfig) (s : RelayState) (sid eid : String),
      s.streamSid = some sid → eid ≠ "" →
      handleElevenLabsMessage cfg s (RMsg.ping (some eid)) =
        (s, [ROut.elPong eid]))
    ∧ (∀ (cfg : RelayConfig) (s : RelayState) (eid : String),
      s.streamSid = none →
      handleElevenLabsMessage cfg s (RMsg.ping (some eid)) =
        ({ s with deferred := s.deferred ++ [RMsg.ping (some eid)] }, [])) := by
  constructor
  · intro cfg s sid eid hs he
    simp [handleElevenLabsMessage, hs, he]
  · intro cfg s eid hs
    simp [handleElevenLabsMessage, hs]

/-- Witness for C5: with `streamSid = "SID1"` the ping "e-42" yields
exactly one pong with the same id; from the fresh session (no
`streamSid`) the same ping is re-queued with no output. -/
theorem relay_c5_witness :
    (sStarted.streamSid = some "SID1" ∧
      handleElevenLabsMessage cfg0 sStarted (RMsg.ping (some "e-42")) =
        (sStarted, [ROut.elPong "e-42"]))
    ∧ (relayInit.streamSid = none ∧
      handleElevenLabsMessage cfg0 relayInit (RMsg.ping (some "e-42")) =
        ({ relayInit with deferred := [RMsg.ping (some "e-42")] }, [])) :=
  ⟨⟨rfl, relay_c5_amended.1 cfg0 sStarted "SID1" "e-42" rfl (by decide)⟩,
   ⟨rfl, relay_c5_amended.2 cfg0 relayInit "e-42" rfl⟩⟩

/-! ## Claim C6 -/

/-- Counterexample for C6: an AI `audio` message with payload "ZZ"
arriving while `streamSid` is unset is re-queued, and once the `start`
event sets `streamSid = "SID1"` the retry timer forwards it to the
telephony peer as a `media` frame — the payload is *not* dropped, the
media frame is sent after `streamSid` becomes set. -/
theorem relay_c6_counterexample :
    ROut.twilioMedia "SID1" "ZZ" ∈
      (runRelay cfg0 relayInit evsAudioDeferred).2 := by
  decide

/-- Claim C6 (corrected): an AI `audio` message arriving while
`streamSid` is unset is re-queued (every 100 ms), not dropped: nothing
is sent while `streamSid` remains unset, and once `streamSid` is set
the retried message is forwarded to the telephony peer as a `media`
frame tagged with the then-current `streamSid`; an `audio` message
processed while `streamSid` is set is forwarded immediately. -/
theorem relay_c6_amended :
    (∀ (cfg : RelayConfig) (s : RelayState) (p : String),
      s.streamSid = none →
      handleElevenLabsMessage cfg s (RMsg.audio (some p)) =
        ({ s with deferred := s.deferred ++ [RMsg.audio (some p)] }, []))
    ∧ (∀ (cfg : RelayConfig) (s : RelayState) (sid p : String),
      s.streamSid = some sid → p ≠ "" →
      handleElevenLabsMessage cfg s (RMsg.audio (some p)) =
        (s, [ROut.twilioMedia sid p]))
    ∧ (∀ (cfg : RelayConfig) (s : RelayState) (sid p : String)
        (rest : List RMsg),
      s.streamSid = some sid → p ≠ "" →
      s.deferred = RMsg.audio (some p) :: rest →
      relayStep cfg s REv.retryDeferred =
        ({ s with deferred := rest }, [ROut.twilioMedia sid p])) := by
  refine ⟨?_, ?_, ?_⟩
  · intro cfg s p hs
    simp [handleElevenLabsMessage, hs]
  · intro cfg s sid p hs hp
    simp [handleElevenLabsMessage, hs, hp]
  · intro cfg s sid p rest hs hp hd
    simp [relayStep, hd, handleElevenLabsMessage, hs, hp]

/-- Witness for C6: from the fresh session the audio "ZZ" is re-queued
with no output; in the state where "ZZ" is queued and
`streamSid = "SID1"` is set, the retry forwards
`{event:"media", streamSid:"SID1", media:{payload:"ZZ"}}`. -/
theorem relay_c6_witness :
    (relayInit.streamSid = none ∧
      handleElevenLabsMessage cfg0 relayInit (RMsg.audio (some "ZZ")) =
        ({ relayInit with deferred := [RMsg.audio (some "ZZ")] }, []))
    ∧ (sAudioQueued.streamSid = some "SID1" ∧
      sAudioQueued.deferred = [RMsg.audio (some "ZZ")] ∧
      relayStep cfg0 sAudioQueued REv.retryDeferred =
        ({ sAudioQueued with deferred := [] }, [ROut.twilioMedia "SID1" "ZZ"])) :=
  ⟨⟨rfl, relay_c6_amended.1 cfg0 relayInit "ZZ" rfl⟩,
   ⟨rfl, rfl,
    relay_c6_amended.2.2 cfg0 sAudioQueued "SID1" "ZZ" [] rfl (by decide) rfl⟩⟩

/-! ## Claim C7 -/

/-- Counterexample for C7: in scenario S5 with `MAX_AI_RETRIES = 2` and
the AI socket closing immediately after each of three successful
opens, the `reconnects` metric ends at 1 (the `open` handler increments
it only when `firstConnection` is true, so three opens do not give 3,
contradicting "every successful open increments the reconnects
metric"), and the telephony socket is never closed with the metric
never 0 (each open resets `reconnectAttempts` to 0, so the retry
budget never exhausts), contradicting the claimed S5 outcome. -/
theorem relay_c7_counterexample :
    (runRelay cfgS5 relayInit evsS5open).1.reconnectsMetric = 1
    ∧ ROut.closeTwilio ∉ (runRelay cfgS5 relayInit evsS5open).2 := by
  decide

/-- Claim C7 (corrected): every successful AI open resets
`reconnectAttempts` to zero, and the `reconnects` metric is incremented
only on the *first* successful open of the session (`firstConnection`);
the S5 outcome — telephony socket closed after backoffs of 1000 ms and
2000 ms with `reconnects_total = 0` — holds when the three AI socket
closures occur *without* any successful open. -/
theorem relay_c7_amended :
    (∀ (cfg : RelayConfig) (s : RelayState),
      relayStep cfg s REv.elOpen =
        ({ s with conversationActive := true, wsOpen := true,
                  reconnectAttempts := 0, firstConnection := false,
                  reconnectsMetric :=
                    if s.firstConnection then s.reconnectsMetric + 1
                    else s.reconnectsMetric },
         if cfg.hasContext then [ROut.elInitData] else []))
    ∧ (runRelay cfgS5 relayInit [REv.elClose, REv.elClose, REv.elClose]).2 =
        [ROut.scheduleConnect 1000, ROut.scheduleConnect 2000, ROut.closeTwilio]
    ∧ (runRelay cfgS5 relayInit
        [REv.elClose, REv.elClose, REv.elClose]).1.reconnectsMetric = 0 := by
  refine ⟨?_, by decide, by decide⟩
  intro cfg s
  by_cases hf : s.firstConnection <;> simp [relayStep, hf]

/-! ## Claim C8 -/

/-- Counterexample for C8: with `active_calls = 2`, delivering the same
terminal status "completed" for the same `CallSid` twice decrements
twice (2 → 1 → 0): the second delivery changes `active_calls`, so the
claimed idempotence fails — the handler has no per-`CallSid`
deduplication, only the `Math.max(0, ...)` floor. -/
theorem relay_c8_counterexample :
    (callStatusStep (callStatusStep { activeCalls := 2, contexts := [] }
        "CA123" "completed") "CA123" "completed").activeCalls
      ≠ (callStatusStep { activeCalls := 2, contexts := [] }
        "CA123" "completed").activeCalls := by
  decide

/-- Claim C8 (corrected): a terminal `CallStatus` decrements
`active_calls` with a floor at zero (it never becomes negative, and
from zero a terminal delivery leaves it at zero, so a duplicate
delivery is a no-op exactly when `active_calls` is already zero); when
`active_calls` is positive a duplicate terminal delivery decrements
again — idempotence per `CallSid` does not hold in general. -/
theorem relay_c8_amended (st : StatusState) (sid cs : String)
    (h : 0 ≤ st.activeCalls) :
    0 ≤ (callStatusStep st sid cs).activeCalls
    ∧ (cs ∈ terminalStatuses → 0 < st.activeCalls →
        (callStatusStep st sid cs).activeCalls = st.activeCalls - 1)
    ∧ (st.activeCalls = 0 →
        (callStatusStep (callStatusStep st sid cs) sid cs).activeCalls
          = (callStatusStep st sid cs).activeCalls) := by
  refine ⟨?_, fun ht hpos => ?_, fun h0 => ?_⟩
  · by_cases ht : cs ∈ terminalStatuses
    · simp [callStatusStep, ht]
    · simp only [callStatusStep, ht, if_neg, ite_false]
      exact h
  · simp [callStatusStep, ht]
    omega
  · by_cases ht : cs ∈ terminalStatuses <;> simp [callStatusStep, ht, h0]

/-- Witness for C8: from `active_calls = 1` a terminal delivery floors
at a non-negative value and equals 0; from `active_calls = 0` the
duplicate delivery leaves the value unchanged. -/
theorem relay_c8_witness :
    (0 ≤ (callStatusStep { activeCalls := 1, contexts := [] }
        "CA1" "completed").activeCalls)
    ∧ ((callStatusStep { activeCalls := 1, contexts := [] }
        "CA1" "completed").activeCalls = 0)
    ∧ ((callStatusStep (callStatusStep { activeCalls := 0, contexts := [] }
        "CA1" "completed") "CA1" "completed").activeCalls
      = (callStatusStep { activeCalls := 0, contexts := [] }
        "CA1" "completed").activeCalls) :=
  ⟨(relay_c8_amended { activeCalls := 1, contexts := [] } "CA1" "completed"
      (by decide)).1,
   by
    have h := (relay_c8_amended { activeCalls := 1, contexts := [] }
      "CA1" "completed" (by decide)).2.1 (by decide) (by decide)
    simpa using h,
   (relay_c8_amended { activeCalls := 0, contexts := [] } "CA1" "completed"
      (by decide)).2.2 rfl⟩

/-! ## Claim C9 -/

/-- Claim C9 (confirmed): `POST /twilio/outbound_call` replies 400 when
the body's `to` field is missing/falsy or fails the E.164 regex
`^\+?[1-9]\d{1,14}$`, and such a validation failure leaves the metrics
(in particular `errors_total`) untouched; conversely, whenever
`errors_total` changes, the response is the 500 provider-failure path
and the increment is exactly one. -/
theorem relay_c9 (m : Metrics) (t : Option String) (p : ProviderResult) :
    ((t = none ∨ ∃ s, t = some s ∧ e164 s = false) →
      (outboundCall m t p).1 = 400 ∧ (outboundCall m t p).2 = m)
    ∧ ((outboundCall m t p).2.errors ≠ m.errors →
      (outboundCall m t p).1 = 500
      ∧ (outboundCall m t p).2.errors = m.errors + 1
      ∧ ∃ msg, p = ProviderResult.err msg) := by
  constructor
  · rintro (rfl | ⟨s, rfl, hs⟩)
    · simp [outboundCall]
    · by_cases hempty : s = ""
      · simp [outboundCall, hempty]
      · simp [outboundCall, hempty, hs]
  · intro herr
    match t with
    | none => exact absurd rfl herr
    | some s =>
        by_cases hempty : s = ""
        · rw [show outboundCall m (some s) p = (400, m) by
            simp [outboundCall, hempty]] at herr
          exact absurd rfl herr
        · by_cases hreg : e164 s
          · match p with
            | ProviderResult.ok c st =>
                rw [show outboundCall m (some s) (ProviderResult.ok c st) =
                    (200, { m with calls := m.calls + 1,
                                   activeCalls := m.activeCalls + 1 }) by
                  simp [outboundCall, hempty, hreg]] at herr ⊢
                exact absurd rfl herr
            | ProviderResult.err msg =>
                refine ⟨?_, ?_, msg, rfl⟩ <;>
                  simp [outboundCall, hempty, hreg]
          · rw [show outboundCall m (some s) p = (400, m) by
              simp [outboundCall, hempty, hreg]] at herr
            exact absurd rfl herr

/-- Witness for C9: "0abc" fails the E.164 regex, so the call replies
400 with metrics unchanged even though the provider would succeed; a
valid number with a provider failure replies 500 with `errors`
incremented to 1. -/
theorem relay_c9_witness :
    ((outboundCall { calls := 0, errors := 0, activeCalls := 0, reconnects := 0 }
        (some "0abc") (ProviderResult.ok "CA1" "queued")).1 = 400
    ∧ (outboundCall { calls := 0, errors := 0, activeCalls := 0, reconnects := 0 }
        (some "0abc") (ProviderResult.ok "CA1" "queued")).2 =
      { calls := 0, errors := 0, activeCalls := 0, reconnects := 0 })
    ∧ ((outboundCall { calls := 0, errors := 0, activeCalls := 0, reconnects := 0 }
        (some "+15551234567") (ProviderResult.err "boom")).1 = 500
    ∧ (outboundCall { calls := 0, errors := 0, activeCalls := 0, reconnects := 0 }
        (some "+15551234567") (ProviderResult.err "boom")).2.errors = 1) :=
  ⟨(relay_c9 { calls := 0, errors := 0, activeCalls := 0, reconnects := 0 }
      (some "0abc") (ProviderResult.ok "CA1" "queued")).1
    (Or.inr ⟨"0abc", rfl, by decide⟩),
   by
    have h := (relay_c9 { calls := 0, errors := 0, activeCalls := 0, reconnects := 0 }
      (some "+15551234567") (ProviderResult.err "boom")).2 (by decide)
    exact ⟨h.1, h.2.1⟩⟩

/-! ## Claim C10 -/

/-- Counterexample for C10: for the never-seen callSid "constructor"
the property read `transcripts["constructor"]` hits the inherited
`Object.prototype.constructor` function, which is truthy, so
`|| []` does not substitute the empty array and `JSON.stringify` drops
the function-valued field: the body is `{"callSid":"constructor"}`,
not `{ callSid, transcript: [] }`; for "__proto__" the inherited
accessor yields `Object.prototype`, serialized as `{}`.  The status is
still 200 in both cases. -/
theorem relay_c10_counterexample :
    (getTranscriptHandler ([] : List (String × List TranscriptTurn))
        "constructor").2 ≠
      { callSid := "constructor", transcript := TranscriptField.turns [] }
    ∧ (getTranscriptHandler ([] : List (String × List TranscriptTurn))
        "constructor").2.transcript = TranscriptField.omitted
    ∧ (getTranscriptHandler ([] : List (String × List TranscriptTurn))
        "__proto__").2.transcript = TranscriptField.protoObject
    ∧ (getTranscriptHandler ([] : List (String × List TranscriptTurn))
        "constructor").1 = 200 := by
  decide

/-- Claim C10 (corrected): `GET /transcripts/:callSid` always replies
with status 200 and echoes the callSid; for every callSid with no
recorded turns that is not a property name inherited from
`Object.prototype` (not `"__proto__"` and not one of its method
names), the body is `{ callSid, transcript: [] }`; for a registered
callSid (other than the impossible own key `"__proto__"`) the body
carries the stored turn list, empty or not.  For the inherited names
the endpoint still does not error, but the transcript field is the
serialized inherited value (omitted for functions, `{}` for
`"__proto__"`) rather than `[]`. -/
theorem relay_c10_amended (store : List (String × List TranscriptTurn))
    (sid : String) :
    (getTranscriptHandler store sid).1 = 200
    ∧ (getTranscriptHandler store sid).2.callSid = sid
    ∧ (sid ∉ objectProtoProps → sid ≠ "__proto__" → store.lookup sid = none →
        (getTranscriptHandler store sid).2.transcript = TranscriptField.turns [])
    ∧ (∀ ts, store.lookup sid = some ts → sid ≠ "__proto__" →
        (getTranscriptHandler store sid).2.transcript = TranscriptField.turns ts) := by
  refine ⟨?_, ?_, fun hp hne hl => ?_, fun ts hl hne => ?_⟩
  · by_cases hne : sid = "__proto__"
    · simp [getTranscriptHandler, hne]
    · cases hl : store.lookup sid with
      | none =>
          by_cases hp : sid ∈ objectProtoProps <;>
            simp [getTranscriptHandler, hne, hl, hp]
      | some ts => simp [getTranscriptHandler, hne, hl]
  · by_cases hne : sid = "__proto__"
    · simp [getTranscriptHandler, hne]
    · cases hl : store.lookup sid with
      | none =>
          by_cases hp : sid ∈ objectProtoProps <;>
            simp [getTranscriptHandler, hne, hl, hp]
      | some ts => simp [getTranscriptHandler, hne, hl]
  · simp [getTranscriptHandler, hne, hl, hp]
  · simp [getTranscriptHandler, hne, hl]

/-- Witness for C10 (amended): a never-seen ordinary callSid "CA404"
yields 200 with `transcript: []`; the registered callSid "CA1" with
one stored turn yields exactly that turn list. -/
theorem relay_c10_witness :
    ((getTranscriptHandler ([] : List (String × List TranscriptTurn))
        "CA404").1 = 200
    ∧ (getTranscriptHandler ([] : List (String × List TranscriptTurn))
        "CA404").2.callSid = "CA404"
    ∧ (getTranscriptHandler ([] : List (String × List TranscriptTurn))
        "CA404").2.transcript = TranscriptField.turns [])
    ∧ (getTranscriptHandler
        [("CA1", [{ role := "user", text := "hi", timestamp := "t0" }])]
        "CA1").2.transcript =
      TranscriptField.turns [{ role := "user", text := "hi", timestamp := "t0" }] :=
  ⟨⟨(relay_c10_amended [] "CA404").1, (relay_c10_amended [] "CA404").2.1,
    (relay_c10_amended [] "CA404").2.2.1 (by decide) (by decide) rfl⟩,
   (relay_c10_amended
      [("CA1", [{ role := "user", text := "hi", timestamp := "t0" }])] "CA1").2.2.2
      [{ role := "user", text := "hi", timestamp := "t0" }] rfl (by decide)⟩
